import Mathlib

/-!
Verification development for the Multi-MP3 downloader/reconciler program
(`main.py`).  The program's functions are shallowly embedded as executable
Lean definitions over `List Char` strings; filesystem contents are passed
explicitly as state.  Theorems at the end of the file settle the frozen
claims about the program.
-/

namespace MultiMP3

/-- Python strings are modelled as lists of characters. -/
abbrev Str := List Char

/-- ASCII whitespace accepted by Python `str.strip()` and the regex class
`\s` (space, tab, newline, carriage return, vertical tab, form feed). -/
def pyIsSpace (c : Char) : Bool :=
  c == ' ' || c == '\t' || c == '\n' || c == '\r' ||
  c == Char.ofNat 11 || c == Char.ofNat 12

/-- Python `str.strip()`: drop whitespace from both ends. -/
def pyStrip (s : Str) : Str :=
  ((s.dropWhile pyIsSpace).reverse.dropWhile pyIsSpace).reverse

/-- Index of the first occurrence of `needle` in `s` (Python `str.find` /
the position located by `str.split`). -/
def findSub (needle : Str) : Str → Option Nat
  | [] => if needle.isEmpty then some 0 else none
  | c :: rest =>
    if needle.isPrefixOf (c :: rest) then some 0
    else (findSub needle rest).map (· + 1)

/-- Python `needle in s` substring test. -/
def containsSub (needle s : Str) : Bool :=
  (findSub needle s).isSome

/-- Python `s.split(sep, 1)`: the part before the first occurrence of
`sep` and the part after it.  When `sep` does not occur the second
component is empty (the call sites in `main.py` guard the index `[1]`
by a containment test or handle the failure). -/
def pySplit1 (sep s : Str) : Str × Str :=
  match findSub sep s with
  | none => (s, [])
  | some i => (s.take i, s.drop (i + sep.length))

/-- Worker for `pySplit`, structurally recursive on a fuel bound. -/
def pySplitAux (sep : Str) : Nat → Str → List Str
  | 0, s => [s]
  | Nat.succ fuel, s =>
    match findSub sep s with
    | none => [s]
    | some i => s.take i :: pySplitAux sep fuel (s.drop (i + sep.length))

/-- Python `s.split(sep)` for a nonempty separator. -/
def pySplit (sep s : Str) : List Str :=
  pySplitAux sep (s.length + 1) s

/-- Digits of `n`, most significant first, by repeated division; the
fuel argument only bounds the recursion depth. -/
def natDigitsCore : Nat → Nat → Str
  | 0, _ => []
  | fuel + 1, n =>
    if n = 0 then []
    else natDigitsCore fuel (n / 10) ++ [Nat.digitChar (n % 10)]

/-- Decimal digit string of a natural number (Python `str(n)` for the
nonnegative ordinals handled by the program). -/
def natDigits (n : Nat) : Str :=
  if n = 0 then ['0'] else natDigitsCore (n + 1) n

/-- Python format `f"{n:0{w}d}"`: decimal digits left-padded with zeros
to width `w`. -/
def fmtPad (w n : Nat) : Str :=
  let ds := natDigits n
  List.replicate (w - ds.length) '0' ++ ds

/-- Numeric value of a decimal digit string (Python `int(s)` on the
digit strings produced by the program). -/
def digitsToNat (s : Str) : Nat :=
  s.foldl (fun a c => a * 10 + (c.toNat - 48)) 0

/-! ## Data model (`class Playlist` / `class Song` in `main.py`)

`Playlist.songs` is never populated on the records the claims are about
(every constructor call reaching a claim passes only name, URL and
length), so the field is omitted from the embedding. -/

structure Playlist where
  name : Str
  playlist_url : Str
  length : Nat
deriving DecidableEq

structure Song where
  title : Str
  artists : List Str
  song_url : Str
  playlist_url : Str
  error : Str
  playlist : Playlist
  list_position : Str
deriving DecidableEq

/-- The per-playlist sidecar JSON document, reduced to the two fields the
reconcilers read (`playlist_count`, `webpage_url`); `none` for the whole
document models a `json.load` failure (the code substitutes `{}`). -/
structure InfoDoc where
  playlist_count : Option Nat
  webpage_url : Option Str
deriving DecidableEq

def InfoDoc.empty : InfoDoc := ⟨none, none⟩

/-- A file inside a playlist directory: its name and, when the code opens
it as JSON, the parse result. -/
structure PFile where
  name : Str
  json : Option InfoDoc
deriving DecidableEq

/-- A subdirectory of the output root, as seen by `iterdir()`. -/
structure PlaylistDir where
  name : Str
  files : List PFile
deriving DecidableEq

/-- The output root: its plain files, the contents of the `.metadata`
bookkeeping directory, and its other subdirectories in iteration order.
`.metadata` is represented because the reconcilers both iterate it as a
candidate playlist directory and write `<name>.json` files into it —
files that match the `*.info.json` sidecar pattern whenever a playlist
name ends in `.info`, so a later pass can process `.metadata` itself.
The `.errors` and `.icons` directories hold only timestamped `.txt` logs
and `.jpg` covers, which never match `*.info.json`, so they are not
represented; `iterdir()` entries that are not directories are skipped by
the code. -/
structure OutRoot where
  rootFiles : List PFile
  metadataFiles : List PFile
  dirs : List PlaylistDir
deriving DecidableEq

/-! ## Filename parsing (pathlib `stem` / `suffix`, leading-int regex) -/

/-- `pathlib.PurePath.suffix`: the part of the name from the last dot on,
provided that dot is neither the first nor the last character. -/
def pySuffix (nm : Str) : Str :=
  match nm.reverse.findIdx? (fun c => c == '.') with
  | none => []
  | some rj =>
    let i := nm.length - 1 - rj
    if 0 < i ∧ i < nm.length - 1 then nm.drop i else []

/-- `pathlib.PurePath.stem`: the name with `pySuffix` removed. -/
def pyStem (nm : Str) : Str :=
  nm.take (nm.length - (pySuffix nm).length)

/-- `re.match(r'^\s*(\d+)', s)` (with `skipWs`) or `re.match(r'(\d+)', s)`
(without): the captured digit group, if any. -/
def matchLeadingInt (skipWs : Bool) (s : Str) : Option Str :=
  let t := if skipWs then s.dropWhile pyIsSpace else s
  let ds := t.takeWhile Char.isDigit
  if ds.isEmpty then none else some ds

def extMp3 : Str := ".mp3".data

def extFlac : Str := ".flac".data

def extM4a : Str := ".m4a".data

def infoExtStr : Str := ".info.json".data

def descExtStr : Str := ".description".data

/-- Files matching `glob("*.info.json")`, in directory order. -/
def isInfoJson (nm : Str) : Bool :=
  List.isSuffixOf infoExtStr nm

def infoFilesOf (d : PlaylistDir) : List PFile :=
  d.files.filter (fun f => isInfoJson f.name)

/-- The per-directory audio scan shared by all three reconcilers: collect
the leading integer of every file whose (lower-cased) extension is in
`exts`, together with the maximum digit-width seen.  (The code sorts
`numbers` afterwards; sorting does not change membership, which is all
the missing-set computation uses.) -/
def scanNumbers (skipWs : Bool) (exts : List Str) (names : List Str) :
    List Nat × Nat :=
  names.foldl (fun acc nm =>
    if exts.contains ((pySuffix nm).map Char.toLower) then
      match matchLeadingInt skipWs (pyStem nm) with
      | some ds => (acc.1 ++ [digitsToNat ds], max acc.2 ds.length)
      | none => acc
    else acc) ([], 0)

/-- `[n for n in range(1, expected_count + 1) if n not in numbers]`. -/
def missingBetween (expected : Nat) (numbers : List Nat) : List Nat :=
  (List.range' 1 expected).filter (fun n => !(numbers.contains n))

def strMissingSp : Str := "Missing ".data

/-! ## Filesystem-count reconciler, YouTube variant
(`cleanup_ytdlp_metadata`, main.py lines 135-239) -/

/-- The `Song(...)` constructed for one missing ordinal in
`cleanup_ytdlp_metadata`. -/
def mkMissingSongYt (doc : InfoDoc) (pname : Str) (expected padding num : Nat) :
    Song :=
  { song_url := [], playlist_url := doc.webpage_url.getD [],
    error := strMissingSp ++ fmtPad padding num,
    title := [], artists := [],
    playlist := { name := pname, playlist_url := doc.webpage_url.getD [],
                  length := expected },
    list_position := fmtPad padding num }

/-- Directory contents after one reconciliation pass: the first
`*.info.json` is renamed into `.metadata`, the remaining ones are
deleted, and `<name>.description` is moved into `.metadata`. -/
def dirAfterCleanup (d : PlaylistDir) : PlaylistDir :=
  { d with files := d.files.filter (fun f =>
      !(isInfoJson f.name) && !(f.name == d.name ++ descExtStr)) }

def metadataDirName : Str := ".metadata".data

def jsonExtStr : Str := ".json".data

def txtExtStr : Str := ".txt".data

/-- The files one directory pass writes into `.metadata`: the merged
`<name>.json` (carrying the fields of the first sidecar, or of the empty
document when that sidecar failed to parse) and, when
`<name>.description` exists, the renamed `<name>.txt`.  Nothing is
written for a skipped directory. -/
def writtenMetaFiles (d : PlaylistDir) : List PFile :=
  match infoFilesOf d with
  | [] => []
  | first :: _ =>
    { name := d.name ++ jsonExtStr,
      json := some (first.json.getD InfoDoc.empty) } ::
    (if d.files.any (fun f => f.name == d.name ++ descExtStr) then
      [{ name := d.name ++ txtExtStr, json := none }] else [])

/-- One iteration of the playlist-directory loop of
`cleanup_ytdlp_metadata`: the missing records produced for this
directory and the directory's contents afterwards.  A directory with no
sidecar files is skipped (`continue`).  The mp3 scan runs after the
first sidecar was moved out, but sidecar files have suffix `.json` and
never take part in the scan. -/
def processDirYt (d : PlaylistDir) : List Song × PlaylistDir :=
  match infoFilesOf d with
  | [] => ([], d)
  | first :: restInfos =>
    let doc := first.json.getD InfoDoc.empty
    let expected := doc.playlist_count.getD (restInfos.length + 1)
    let scan := scanNumbers true [extMp3] (d.files.map (fun f => f.name))
    let missing := missingBetween expected scan.1
    (missing.map (fun num => mkMissingSongYt doc d.name expected scan.2 num),
     dirAfterCleanup d)

/-- `cleanup_ytdlp_metadata`: all missing records across the iterated
directories, and the output root afterwards.  The loop iterates the
snapshot of subdirectories of the output root: the `.metadata`
bookkeeping directory (created by `mkdir(exist_ok=True)` before the
loop) together with the playlist directories.  The real `iterdir()`
order is filesystem-dependent; the model fixes `.metadata` first.  The
after-state keeps the `.metadata` contents, including the files the
pass itself wrote there. -/
def cleanup_ytdlp_metadata (root : OutRoot) : List Song × OutRoot :=
  ((processDirYt ⟨metadataDirName, root.metadataFiles⟩).1 ++
      (root.dirs.map (fun d => (processDirYt d).1)).flatten,
   { rootFiles := root.rootFiles,
     metadataFiles :=
       (processDirYt ⟨metadataDirName, root.metadataFiles⟩).2.files ++
       writtenMetaFiles ⟨metadataDirName, root.metadataFiles⟩ ++
       (root.dirs.map writtenMetaFiles).flatten,
     dirs := root.dirs.map (fun d => (processDirYt d).2) })

/-! ## Filesystem-count reconciler, SoundCloud variant
(`cleanupscdlmetadata`, main.py lines 58-131)

The missing-record constructor call at lines 98-102 passes the keyword
arguments `songurl=`, `playlisturl=` and `listposition=`, but
`Song.__init__` declares the parameters `song_url`, `playlist_url` and
`list_position`.  Calling with a keyword argument that is not a declared
parameter raises `TypeError` in Python, so the call is embedded through
`mkSongKw`, which checks the keyword names used against the declared
parameter names. -/

def songCtorParams : List Str :=
  ["song_url".data, "playlist_url".data, "error".data, "title".data,
   "artists".data, "playlist".data, "list_position".data]

/-- The keyword-argument names written at main.py lines 99-101. -/
def scdlMissingCallKeywords : List Str :=
  ["songurl".data, "playlisturl".data, "error".data, "playlist".data,
   "listposition".data]

def strTypeError : Str :=
  "TypeError: __init__() got an unexpected keyword argument".data

/-- A Python keyword-argument constructor call: succeeds with the
intended record only when every keyword used names a declared
parameter. -/
def mkSongKw (usedKw : List Str) (value : Song) : Except Str Song :=
  if usedKw.all (fun k => songCtorParams.contains k) then Except.ok value
  else Except.error strTypeError

/-- The record the call at main.py lines 98-102 is trying to build
(`Playlist('', playlistname, expectedcount)` is a valid positional
call). -/
def mkMissingSongSc (pname : Str) (expected padding num : Nat) : Song :=
  { song_url := [], playlist_url := [],
    error := strMissingSp ++ fmtPad padding num,
    title := [], artists := [],
    playlist := { name := pname, playlist_url := [], length := expected },
    list_position := fmtPad padding num }

/-- One iteration of the playlist-directory loop of
`cleanupscdlmetadata`.  The mp3-number regex here is `(\d+)` (no
leading-whitespace skip). -/
def processDirSc (d : PlaylistDir) : Except Str (List Song × PlaylistDir) :=
  match infoFilesOf d with
  | [] => Except.ok ([], d)
  | first :: restInfos =>
    let doc := first.json.getD InfoDoc.empty
    let expected := doc.playlist_count.getD (restInfos.length + 1)
    let scan := scanNumbers false [extMp3] (d.files.map (fun f => f.name))
    let missing := missingBetween expected scan.1
    match List.foldlM (fun acc num =>
        (mkSongKw scdlMissingCallKeywords
          (mkMissingSongSc d.name expected scan.2 num)).map
          (fun s => acc ++ [s])) ([] : List Song) missing with
    | Except.error e => Except.error e
    | Except.ok songs => Except.ok (songs, dirAfterCleanup d)

/-- `cleanupscdlmetadata`: deletes root-level `*.info.json` files, then
processes every iterated directory — the `.metadata` bookkeeping
directory (modelled first, as in `cleanup_ytdlp_metadata`) and the
playlist directories; an uncaught `TypeError` from the missing-record
constructor aborts the whole call (`Except.error`). -/
def cleanupscdlmetadata (root : OutRoot) : Except Str (List Song × OutRoot) :=
  match processDirSc ⟨metadataDirName, root.metadataFiles⟩ with
  | Except.error e => Except.error e
  | Except.ok mdRes =>
    match root.dirs.mapM processDirSc with
    | Except.error e => Except.error e
    | Except.ok results =>
        Except.ok (mdRes.1 ++ (results.map (fun p => p.1)).flatten,
          { rootFiles := root.rootFiles.filter (fun f => !(isInfoJson f.name)),
            metadataFiles := mdRes.2.files ++
              writtenMetaFiles ⟨metadataDirName, root.metadataFiles⟩ ++
              (root.dirs.map writtenMetaFiles).flatten,
            dirs := results.map (fun p => p.2) })

/-! ## Metadata-authoritative reconciler, Spotify variant
(`check_missing_tracks_with_metadata_spotify`, main.py lines 242-317) -/

/-- One item of `meta["tracks"]["items"]`, reduced to the three values
the code extracts: the `track_item.get("track") or track_item`
indirection and the JSON `.get(..., default)` chains are collapsed into
the pre-extracted fields. -/
structure SpTrackItem where
  name : Str
  artistNames : List Str
  spotifyUrl : Str
deriving DecidableEq

def dflTrackItem : SpTrackItem := ⟨[], [], []⟩

/-- Inputs of the Spotify reconciler: whether the per-playlist metadata
document and the playlist directory exist, the parse result of the
document (its `tracks.items` list; `none` models a load failure), and
the file names in the playlist directory. -/
structure SpState where
  metadataFileExists : Bool
  metaDoc : Option (List SpTrackItem)
  playlistDirExists : Bool
  files : List Str
deriving DecidableEq

def spotifyExts : List Str := [extMp3, extFlac, extM4a]

/-- The `Song(...)` constructed for one missing ordinal in
`check_missing_tracks_with_metadata_spotify` from the 1-indexed
track-listing item. -/
def songOfItem (purl pname : Str) (expected padding num : Nat)
    (it : SpTrackItem) : Song :=
  { title := pyStrip it.name, artists := it.artistNames,
    song_url := it.spotifyUrl, playlist_url := [],
    error := strMissingSp ++ fmtPad padding num,
    playlist := { name := pname, playlist_url := purl, length := expected },
    list_position := fmtPad padding num }

/-- `check_missing_tracks_with_metadata_spotify`: expected count is the
length of the metadata track listing; returns `[]` when the metadata
document or the playlist directory is absent, the document fails to
load, or no numbered audio files exist yet. -/
def check_missing_tracks_with_metadata_spotify (purl pname : Str)
    (st : SpState) : List Song :=
  if st.metadataFileExists = false then [] else
  if st.playlistDirExists = false then [] else
  match st.metaDoc with
  | none => []
  | some tracks =>
    let expected := tracks.length
    let scan := scanNumbers true spotifyExts st.files
    if scan.1.isEmpty then [] else
    let missing := missingBetween expected scan.1
    if missing.isEmpty then [] else
    missing.filterMap (fun num =>
      (tracks[num - 1]?).map (songOfItem purl pname expected scan.2 num))

/-! ## Link extractor (`clean_url` / `read_links`, main.py lines 390-464)

The regular expressions of `clean_url` are hand-rolled: each is a fixed
scheme/host prefix followed by a greedy run of characters outside
`[\s)\]]`.  `re.search` semantics (leftmost match, greedy `+`) are
reproduced by trying every start position left to right.  The host
alternatives (`youtube.com|youtu.be`) and the optional `www.`/`open.`
prefixes never overlap on a common string, so committing to the first
alternative that matches is equivalent to backtracking. -/

/-- Characters allowed in the URL body: the regex class `[^\s\)\]]`. -/
def isUrlChar (c : Char) : Bool :=
  !(pyIsSpace c) && c != ')' && c != ']'

/-- Consume a literal; the state is (characters consumed, remainder). -/
def eatLit (pat : Str) (st : Nat × Str) : Option (Nat × Str) :=
  if pat.isPrefixOf st.2 then some (st.1 + pat.length, st.2.drop pat.length)
  else none

/-- Consume an optional literal (regex `(?:pat)?`). -/
def eatOpt (pat : Str) (st : Nat × Str) : Nat × Str :=
  (eatLit pat st).getD st

/-- Consume the first matching alternative (regex `(?:a|b)`). -/
def eatFirst : List Str → Nat × Str → Option (Nat × Str)
  | [], _ => none
  | p :: ps, st =>
    match eatLit p st with
    | some st2 => some st2
    | none => eatFirst ps st

/-- Consume a nonempty greedy run of URL characters (regex
`[^\s\)\]]+`). -/
def eatUrlChars (st : Nat × Str) : Option (Nat × Str) :=
  let run := st.2.takeWhile isUrlChar
  if run.isEmpty then none
  else some (st.1 + run.length, st.2.drop run.length)

def strHttp : Str := "http".data

def strSingleS : Str := "s".data

def strSchemeSep : Str := "://".data

def strWwwDot : Str := "www.".data

def strOpenDot : Str := "open.".data

def ytHosts : List Str := ["youtube.com/".data, "youtu.be/".data]

def scHosts : List Str := ["soundcloud.com/".data]

def spHosts : List Str := ["spotify.com/".data]

/-- Match `https?://(?:optPart)?(host₁|host₂)[^\s\)\]]+` at the start of
`s`, returning the length of the match. -/
def matchUrlAt (optPart : Str) (hosts : List Str) (s : Str) : Option Nat :=
  (eatLit strHttp (0, s)).bind (fun st =>
    let st := eatOpt strSingleS st
    (eatLit strSchemeSep st).bind (fun st =>
      let st := eatOpt optPart st
      (eatFirst hosts st).bind (fun st =>
        (eatUrlChars st).map (fun st => st.1))))

/-- `re.search` for the plain-URL patterns: the leftmost match. -/
def searchUrl (optPart : Str) (hosts : List Str) : Str → Option Str
  | [] => none
  | c :: rest =>
    match matchUrlAt optPart hosts (c :: rest) with
    | some len => some ((c :: rest).take len)
    | none => searchUrl optPart hosts rest

/-- Match the markdown pattern `\((url)\)` at the start of `s`,
returning the captured inner URL. -/
def matchMdAt (optPart : Str) (hosts : List Str) : Str → Option Str
  | '(' :: rest =>
    match matchUrlAt optPart hosts rest with
    | some len =>
      match rest.drop len with
      | ')' :: _ => some (rest.take len)
      | _ => none
    | none => none
  | _ => none

/-- `re.search` for the markdown patterns. -/
def searchMd (optPart : Str) (hosts : List Str) : Str → Option Str
  | [] => none
  | c :: rest =>
    match matchMdAt optPart hosts (c :: rest) with
    | some u => some u
    | none => searchMd optPart hosts rest

def strHashChar : Str := "#".data

def spotifyUrlStart : Str := "https://open.spotify.com/".data

/-- `clean_url`: extract the link carried by one input line, trying, in
order: markdown YouTube, plain YouTube, plain SoundCloud, markdown
Spotify, then a line that itself starts with the Spotify URL start.
Returns the empty string when the line is a comment, blank, or carries
no link. -/
def clean_url (line : Str) : Str :=
  if strHashChar.isPrefixOf line then [] else
  let l := pyStrip line
  if l.isEmpty then [] else
  match searchMd strWwwDot ytHosts l with
  | some u => u
  | none =>
  match searchUrl strWwwDot ytHosts l with
  | some u => u
  | none =>
  match searchUrl strWwwDot scHosts l with
  | some u => u
  | none =>
  match searchMd strOpenDot spHosts l with
  | some u => u
  | none =>
  if spotifyUrlStart.isPrefixOf l then l else []

inductive SourceKind
  | spotify
  | soundcloud
  | youtube
deriving DecidableEq

def domSpotify : Str := "spotify.com".data

def domSoundcloud : Str := "soundcloud.com".data

def domYoutube : Str := "youtube.com".data

def domYoutuBe : Str := "youtu.be".data

/-- The `if/elif` classification chain of `read_links`
(main.py lines 439-444): `spotify.com` is tested first, then
`soundcloud.com`, then `youtube.com`/`youtu.be`. -/
def linkKind (url : Str) : Option SourceKind :=
  if containsSub domSpotify url then some SourceKind.spotify
  else if containsSub domSoundcloud url then some SourceKind.soundcloud
  else if containsSub domYoutube url || containsSub domYoutuBe url then
    some SourceKind.youtube
  else none

/-- The dictionary returned by `read_links`. -/
structure Links where
  all : List Str
  spotify : List Str
  soundcloud : List Str
  youtube : List Str
deriving DecidableEq

def emptyLinks : Links := ⟨[], [], [], []⟩

/-- `read_links`: `none` content models a file whose read raises; the
`except` branch logs and returns the empty dictionary, discarding any
partially accumulated lists. -/
def read_links (content : Option (List Str)) : Links :=
  match content with
  | none => emptyLinks
  | some lines =>
    lines.foldl (fun acc raw =>
      let url := clean_url raw
      if url.isEmpty then acc
      else
        let acc2 := { acc with all := acc.all ++ [url] }
        match linkKind url with
        | some SourceKind.spotify =>
            { acc2 with spotify := acc2.spotify ++ [url] }
        | some SourceKind.soundcloud =>
            { acc2 with soundcloud := acc2.soundcloud ++ [url] }
        | some SourceKind.youtube =>
            { acc2 with youtube := acc2.youtube ++ [url] }
        | none => acc2) emptyLinks

/-! ## Error-log parser (`parse_errors`, main.py lines 605-640) -/

def trackUrlStart : Str := "https://open.spotify.com/track/".data

def lookupPat : Str := " - LookupError: No results found for song:".data

def lookupKind : Str := "LookupError: No results found".data

def quoteChar : Char := Char.ofNat 39

def keyErrPat : Str :=
  " - KeyError: ".data ++ [quoteChar] ++ "webCommandMetadata".data ++
  [quoteChar]

def keyErrSplitPat : Str := " - KeyError:".data

def keyErrKind : Str :=
  "KeyError: ".data ++ [quoteChar] ++ "webCommandMetadata".data ++
  [quoteChar]

def audioPat : Str := " - AudioProviderError: YT-DLP download error - ".data

def audioKind : Str := "AudioProviderError: YT-DLP download error".data

def sepDash : Str := " - ".data

def sepComma : Str := ",".data

/-- The line loop of `parse_errors`.  A line is skipped unless, after
stripping, it is nonempty and starts with the Spotify track-URL start.
The first pattern's `split(' - ')[1]` raises `IndexError` when the text
after the pattern has no ` - ` delimiter; the surrounding `try` then
returns the records accumulated so far, which the recursion models by
stopping with `acc`. -/
def parseErrLines (purl : Str) : List Str → List Song → List Song
  | [], acc => acc
  | raw :: rest, acc =>
    let line := pyStrip raw
    if line.isEmpty || !(trackUrlStart.isPrefixOf line) then
      parseErrLines purl rest acc
    else if containsSub lookupPat line then
      match pySplit sepDash (pySplit1 lookupPat line).2 with
      | a :: t :: _ =>
        parseErrLines purl rest (acc ++
          [{ title := pyStrip t,
             artists := (pySplit sepComma a).map pyStrip,
             song_url := pyStrip (pySplit1 lookupPat line).1,
             playlist_url := purl, error := lookupKind,
             playlist := { name := [], playlist_url := purl, length := 0 },
             list_position := [] }])
      | _ => acc
    else if containsSub keyErrPat line then
      parseErrLines purl rest (acc ++
        [{ title := [], artists := [],
           song_url := pyStrip (pySplit1 keyErrSplitPat line).1,
           playlist_url := purl, error := keyErrKind,
           playlist := { name := [], playlist_url := purl, length := 0 },
           list_position := [] }])
    else if containsSub audioPat line then
      parseErrLines purl rest (acc ++
        [{ title := [], artists := [],
           song_url := pyStrip (pySplit1 audioPat line).1,
           playlist_url := purl, error := audioKind,
           playlist := { name := [], playlist_url := purl, length := 0 },
           list_position := [] }])
    else parseErrLines purl rest acc

/-- `parse_errors`: `none` content models an artifact whose read raises;
the `except` branch logs and returns the (empty) accumulated list. -/
def parse_errors (content : Option (List Str)) (purl : Str) : List Song :=
  match content with
  | none => []
  | some lines => parseErrLines purl lines []

/-! ## Orchestrator (`soundcloud_main` / `youtube_main` / `spotify_main`
/ `main`, main.py lines 642-770)

Each phase driver has the same shape: re-read the links (pure, same
result each time), return 0 when its list is empty, otherwise loop over
every link, record a nonzero downloader code in `exit_code` (without
breaking out of the loop) and return the final `exit_code`.  The
reconciler and metadata calls made inside the loops have their return
values discarded and do not influence the exit code, so the loop is
modelled over the downloader results alone. -/

/-- The per-phase link loop: final `exit_code` and the links actually
passed to the downloader, in order. -/
def phaseLoop (dl : Str → Int) (links : List Str) : Int × List Str :=
  links.foldl (fun acc link =>
    let code := dl link
    (if code ≠ 0 then code else acc.1, acc.2 ++ [link])) (0, [])

/-- A phase driver: 0 for an empty link list, else the loop's final
`exit_code`. -/
def phase_main (dl : Str → Int) (links : List Str) : Int :=
  if links.isEmpty then 0 else (phaseLoop dl links).1

/-- `main`: exit 1 when the input file is missing; otherwise run the
SoundCloud, YouTube and Spotify phases in order, exiting with the first
phase result that is nonzero, else 0.  `dlSc`/`dlYt`/`dlSp` give each
downloader invocation's exit code per link. -/
def mainExit (inputFileExists : Bool) (content : Option (List Str))
    (dlSc dlYt dlSp : Str → Int) : Int :=
  if inputFileExists = false then 1
  else
    let sc := phase_main dlSc (read_links content).soundcloud
    if sc ≠ 0 then sc
    else
      let yt := phase_main dlYt (read_links content).youtube
      if yt ≠ 0 then yt
      else
        let sp := phase_main dlSp (read_links content).spotify
        if sp ≠ 0 then sp else 0

/-- Specification-side reformulation used to state what the phase loop
actually computes: the last nonzero code in the list, or 0. -/
def lastNonzeroCode (codes : List Int) : Int :=
  (codes.reverse.find? (fun c => c != 0)).getD 0

/-- Invariant of every missing-track record: the error text is
`"Missing "` followed by the formatted ordinal, and the ordinal's value
lies between 1 and the owning playlist's expected count. -/
def SongInv (s : Song) : Prop :=
  s.error = strMissingSp ++ s.list_position ∧
  1 ≤ digitsToNat s.list_position ∧
  digitsToNat s.list_position ≤ s.playlist.length

/-! ## Concrete states used by the claim theorems -/

def dirC1 : PlaylistDir :=
  { name := "pl".data,
    files := [
      { name := "pl.info.json".data,
        json := some { playlist_count := some 2,
                       webpage_url := some ("http://u".data) } },
      { name := "01 a.mp3".data, json := none } ] }

def rootC1 : OutRoot := { rootFiles := [], metadataFiles := [], dirs := [dirC1] }

/-- The record the YouTube variant returns on `rootC1` (ordinal 2 of 2
missing, observed width 2). -/
def songC1 : Song :=
  { title := [], artists := [], song_url := [],
    playlist_url := "http://u".data,
    error := "Missing 02".data,
    playlist := { name := "pl".data, playlist_url := "http://u".data,
                  length := 2 },
    list_position := "02".data }

def linkC2a : Str := "https://soundcloud.com/a".data

def linkC2b : Str := "https://soundcloud.com/b".data

def contentC2 : Option (List Str) := some [linkC2a, linkC2b]

/-- Downloader results: first SoundCloud link fails with 2, second with
3. -/
def dlC2 : Str → Int := fun u => if u = linkC2a then 2 else 3

def dlZeroC2 : Str → Int := fun _ => 0

def linkC2yt : Str := "https://www.youtube.com/watch?v=q".data

/-- One YouTube link and no SoundCloud links, for the YouTube-phase
propagation case. -/
def contentC2yt : Option (List Str) := some [linkC2yt]

def dlFiveC2 : Str → Int := fun _ => 5

def purlC3 : Str := "https://open.spotify.com/playlist/ABC".data

def pnameC3 : Str := "PN".data

def tracksC3 : List SpTrackItem :=
  [ { name := "T1".data, artistNames := ["A1".data], spotifyUrl := "U1".data },
    { name := "T2".data, artistNames := ["A2".data], spotifyUrl := "U2".data },
    { name := "T3".data, artistNames := ["A3".data], spotifyUrl := "U3".data },
    { name := "T4".data, artistNames := ["A4".data], spotifyUrl := "U4".data },
    { name := "T5".data, artistNames := ["A5".data], spotifyUrl := "U5".data } ]

/-- 3 of 5 expected audio files present, 5-track metadata listing. -/
def stC3 : SpState :=
  { metadataFileExists := true, metaDoc := some tracksC3,
    playlistDirExists := true,
    files := ["01 x.mp3".data, "02 y.mp3".data, "03 z.mp3".data] }

def songC3a : Song :=
  { title := "T4".data, artists := ["A4".data], song_url := "U4".data,
    playlist_url := [], error := "Missing 04".data,
    playlist := { name := pnameC3, playlist_url := purlC3, length := 5 },
    list_position := "04".data }

def songC3b : Song :=
  { title := "T5".data, artists := ["A5".data], song_url := "U5".data,
    playlist_url := [], error := "Missing 05".data,
    playlist := { name := pnameC3, playlist_url := purlC3, length := 5 },
    list_position := "05".data }

/-- Present files `01 - A.mp3` and `002 - B.mp3`, expected count 5. -/
def dirC4a : PlaylistDir :=
  { name := "pl".data,
    files := [
      { name := "pl.info.json".data,
        json := some { playlist_count := some 5, webpage_url := none } },
      { name := "01 - A.mp3".data, json := none },
      { name := "002 - B.mp3".data, json := none } ] }

def rootC4a : OutRoot := { rootFiles := [], metadataFiles := [], dirs := [dirC4a] }

/-- Present ordinals 1 and 3, expected count 5. -/
def dirC4b : PlaylistDir :=
  { name := "pl".data,
    files := [
      { name := "pl.info.json".data,
        json := some { playlist_count := some 5, webpage_url := none } },
      { name := "01 x.mp3".data, json := none },
      { name := "03 y.mp3".data, json := none } ] }

def rootC4b : OutRoot := { rootFiles := [], metadataFiles := [], dirs := [dirC4b] }

def tracksC4 : List SpTrackItem :=
  [ { name := "S1".data, artistNames := [], spotifyUrl := [] },
    { name := "S2".data, artistNames := [], spotifyUrl := [] },
    { name := "S3".data, artistNames := [], spotifyUrl := [] },
    { name := "S4".data, artistNames := [], spotifyUrl := [] },
    { name := "S5".data, artistNames := [], spotifyUrl := [] } ]

/-- The Spotify variant over the same two present files. -/
def stC4 : SpState :=
  { metadataFileExists := true, metaDoc := some tracksC4,
    playlistDirExists := true,
    files := ["01 - A.mp3".data, "002 - B.mp3".data] }

def urlC5 : Str := "https://soundcloud.com/spotify.com/x".data

def contentC5 : Option (List Str) := some [urlC5]

def dlOneC6 : Str → Int := fun _ => 1

def dirC7 : PlaylistDir :=
  { name := "mix".data,
    files := [
      { name := "mix.info.json".data,
        json := some { playlist_count := some 2, webpage_url := none } },
      { name := "01 a.mp3".data, json := none } ] }

def rootC7 : OutRoot := { rootFiles := [], metadataFiles := [], dirs := [dirC7] }

def lineC8 : Str :=
  ("https://open.spotify.com/track/X"
    ++ " - LookupError: No results found for song: Artist1, Artist2 - Title").data

def purlC8 : Str := "https://open.spotify.com/playlist/P".data

def songC8 : Song :=
  { title := "Title".data, artists := ["Artist1".data, "Artist2".data],
    song_url := "https://open.spotify.com/track/X".data,
    playlist_url := purlC8, error := lookupKind,
    playlist := { name := [], playlist_url := purlC8, length := 0 },
    list_position := [] }

def lineC8skip : Str := "some unrelated log line".data

/-- Sidecar metadata (expected count 2) but no numbered audio files. -/
def dirC9 : PlaylistDir :=
  { name := "pl".data,
    files := [
      { name := "pl.info.json".data,
        json := some { playlist_count := some 2, webpage_url := none } } ] }

def rootC9 : OutRoot := { rootFiles := [], metadataFiles := [], dirs := [dirC9] }

def tracksC9 : List SpTrackItem :=
  [ { name := "S1".data, artistNames := [], spotifyUrl := [] },
    { name := "S2".data, artistNames := [], spotifyUrl := [] } ]

/-- The Spotify variant with metadata but no numbered files. -/
def stC9 : SpState :=
  { metadataFileExists := true, metaDoc := some tracksC9,
    playlistDirExists := true, files := [] }

def dirC10 : PlaylistDir :=
  { name := "pl".data,
    files := [
      { name := "pl.info.json".data,
        json := some { playlist_count := some 3, webpage_url := none } },
      { name := "1 a.mp3".data, json := none } ] }

def rootC10 : OutRoot := { rootFiles := [], metadataFiles := [], dirs := [dirC10] }

def songC10 : Song :=
  { title := [], artists := [], song_url := [], playlist_url := [],
    error := "Missing 2".data,
    playlist := { name := "pl".data, playlist_url := [], length := 3 },
    list_position := "2".data }

/-! # Theorems -/

/-! ## Arithmetic of the formatted ordinal strings -/

theorem digitsToNat_zeros (k : Nat) (s : Str) :
    digitsToNat (List.replicate k '0' ++ s) = digitsToNat s := by
  induction k with
  | zero => simp [digitsToNat]
  | succ k ih =>
    simpa [digitsToNat, List.replicate_succ] using ih

theorem digitChar_toNat_sub (d : Nat) (hd : d < 10) :
    (Nat.digitChar d).toNat - 48 = d := by
  interval_cases d <;> rfl

theorem digitsToNat_append_one (xs : Str) (c : Char) :
    digitsToNat (xs ++ [c]) = digitsToNat xs * 10 + (c.toNat - 48) := by
  simp [digitsToNat, List.foldl_append]

theorem digitsToNat_natDigitsCore :
    ∀ fuel n, n ≤ fuel → digitsToNat (natDigitsCore fuel n) = n := by
  intro fuel
  induction fuel with
  | zero =>
    intro n hn
    interval_cases n
    rfl
  | succ fuel ih =>
    intro n hn
    by_cases h0 : n = 0
    · subst h0; simp [natDigitsCore, digitsToNat]
    · have hdiv : n / 10 ≤ fuel := by
        have : n / 10 < n := Nat.div_lt_self (Nat.pos_of_ne_zero h0)
          (by norm_num)
        omega
      rw [natDigitsCore, if_neg h0, digitsToNat_append_one, ih _ hdiv,
        digitChar_toNat_sub _ (Nat.mod_lt n (by norm_num))]
      omega

theorem digitsToNat_natDigits (n : Nat) : digitsToNat (natDigits n) = n := by
  by_cases h : n = 0
  · subst h; rfl
  · unfold natDigits
    rw [if_neg h]
    exact digitsToNat_natDigitsCore (n + 1) n (Nat.le_succ n)

/-- Round trip used for the record invariants: parsing the zero-padded
ordinal string recovers the ordinal. -/
theorem digitsToNat_fmtPad (w n : Nat) : digitsToNat (fmtPad w n) = n := by
  unfold fmtPad
  rw [digitsToNat_zeros, digitsToNat_natDigits]

/-! ## The missing-ordinal set -/

theorem mem_missingBetween (expected : Nat) (numbers : List Nat) (n : Nat) :
    n ∈ missingBetween expected numbers ↔
      1 ≤ n ∧ n ≤ expected ∧ numbers.contains n = false := by
  unfold missingBetween
  simp only [List.mem_filter, List.mem_range'_1, Bool.not_eq_true']
  constructor
  · rintro ⟨⟨h1, h2⟩, h3⟩
    exact ⟨h1, by omega, h3⟩
  · rintro ⟨h1, h2, h3⟩
    exact ⟨⟨h1, by omega⟩, h3⟩

theorem filterMap_eq_map_of_forall {α β : Type} (f : α → Option β)
    (g : α → β) (l : List α) (h : ∀ a ∈ l, f a = some (g a)) :
    l.filterMap f = l.map g := by
  induction l with
  | nil => rfl
  | cons x xs ih =>
    rw [List.filterMap_cons, h x (by simp), List.map_cons,
      ih (fun a ha => h a (by simp [ha]))]

/-! ## The record invariant, per constructor and per variant -/

theorem songInv_mkMissingSongYt (doc : InfoDoc) (pname : Str)
    (expected padding num : Nat) (h1 : 1 ≤ num) (h2 : num ≤ expected) :
    SongInv (mkMissingSongYt doc pname expected padding num) := by
  refine ⟨rfl, ?_, ?_⟩
  · simpa [mkMissingSongYt, digitsToNat_fmtPad] using h1
  · simpa [mkMissingSongYt, digitsToNat_fmtPad] using h2

theorem songInv_songOfItem (purl pname : Str) (expected padding num : Nat)
    (it : SpTrackItem) (h1 : 1 ≤ num) (h2 : num ≤ expected) :
    SongInv (songOfItem purl pname expected padding num it) := by
  refine ⟨rfl, ?_, ?_⟩
  · simpa [songOfItem, digitsToNat_fmtPad] using h1
  · simpa [songOfItem, digitsToNat_fmtPad] using h2

theorem songInv_processDirYt (d : PlaylistDir) (s : Song)
    (hs : s ∈ (processDirYt d).1) : SongInv s := by
  cases hinfo : infoFilesOf d with
  | nil => simp [processDirYt, hinfo] at hs
  | cons first rest =>
    simp only [processDirYt, hinfo, List.mem_map] at hs
    obtain ⟨num, hnum, rfl⟩ := hs
    obtain ⟨h1, h2, -⟩ := (mem_missingBetween _ _ _).mp hnum
    exact songInv_mkMissingSongYt _ _ _ _ _ h1 h2

theorem songInv_cleanup_ytdlp (root : OutRoot) (s : Song)
    (hs : s ∈ (cleanup_ytdlp_metadata root).1) : SongInv s := by
  simp only [cleanup_ytdlp_metadata, List.mem_append, List.mem_flatten,
    List.mem_map] at hs
  rcases hs with hmd | hrest
  · exact songInv_processDirYt _ s hmd
  · obtain ⟨l, ⟨d, hd, rfl⟩, hsl⟩ := hrest
    exact songInv_processDirYt d s hsl

theorem songInv_check_spotify (purl pname : Str) (st : SpState) (s : Song)
    (hs : s ∈ check_missing_tracks_with_metadata_spotify purl pname st) :
    SongInv s := by
  unfold check_missing_tracks_with_metadata_spotify at hs
  by_cases h1 : st.metadataFileExists = false
  · rw [if_pos h1] at hs
    exact absurd hs (List.not_mem_nil s)
  rw [if_neg h1] at hs
  by_cases h2 : st.playlistDirExists = false
  · rw [if_pos h2] at hs
    exact absurd hs (List.not_mem_nil s)
  rw [if_neg h2] at hs
  cases hdoc : st.metaDoc with
  | none =>
    rw [hdoc] at hs
    exact absurd hs (List.not_mem_nil s)
  | some tracks =>
    rw [hdoc] at hs
    simp only at hs
    by_cases h3 : (scanNumbers true spotifyExts st.files).1.isEmpty
    · rw [if_pos h3] at hs
      exact absurd hs (List.not_mem_nil s)
    rw [if_neg h3] at hs
    by_cases h4 :
        (missingBetween tracks.length
          (scanNumbers true spotifyExts st.files).1).isEmpty
    · rw [if_pos h4] at hs
      exact absurd hs (List.not_mem_nil s)
    rw [if_neg h4] at hs
    rw [List.mem_filterMap] at hs
    obtain ⟨num, hnum, heq⟩ := hs
    rw [Option.map_eq_some'] at heq
    obtain ⟨it, -, rfl⟩ := heq
    obtain ⟨g1, g2, -⟩ := (mem_missingBetween _ _ _).mp hnum
    exact songInv_songOfItem _ _ _ _ _ _ g1 g2

/-! ## The SoundCloud variant's constructor bug -/

theorem mkSongKw_scdl (v : Song) :
    mkSongKw scdlMissingCallKeywords v = Except.error strTypeError := rfl

theorem processDirSc_ok_fst (d : PlaylistDir) (p : List Song × PlaylistDir)
    (h : processDirSc d = Except.ok p) : p.1 = [] := by
  cases hinfo : infoFilesOf d with
  | nil =>
    simp only [processDirSc, hinfo] at h
    cases h
    rfl
  | cons first rest =>
    simp only [processDirSc, hinfo] at h
    cases hmiss : missingBetween
        ((first.json.getD InfoDoc.empty).playlist_count.getD
          (rest.length + 1))
        (scanNumbers false [extMp3] (d.files.map (fun f => f.name))).1 with
    | nil =>
      rw [hmiss] at h
      simp only [List.foldlM_nil] at h
      cases h
      rfl
    | cons num ns =>
      rw [hmiss] at h
      simp only [List.foldlM_cons, mkSongKw_scdl] at h
      cases h

theorem mapM_processDirSc_mem :
    ∀ (dirs : List PlaylistDir) (results : List (List Song × PlaylistDir)),
      dirs.mapM processDirSc = Except.ok results →
      ∀ p ∈ results, p.1 = [] := by
  intro dirs
  induction dirs with
  | nil =>
    intro results h p hp
    rw [List.mapM_nil] at h
    cases h
    exact absurd hp (List.not_mem_nil p)
  | cons d ds ih =>
    intro results h p hp
    rw [List.mapM_cons] at h
    cases hd : processDirSc d with
    | error e =>
      rw [hd] at h
      cases h
    | ok r =>
      rw [hd] at h
      cases hds : ds.mapM processDirSc with
      | error e =>
        rw [hds] at h
        cases h
      | ok rs =>
        rw [hds] at h
        cases h
        rcases List.mem_cons.mp hp with rfl | hmem
        · exact processDirSc_ok_fst d p hd
        · exact ih rs hds p hmem

theorem cleanupscdl_ok_fst (root : OutRoot) (res : List Song × OutRoot)
    (h : cleanupscdlmetadata root = Except.ok res) : res.1 = [] := by
  unfold cleanupscdlmetadata at h
  cases hmd : processDirSc ⟨metadataDirName, root.metadataFiles⟩ with
  | error e =>
    rw [hmd] at h
    cases h
  | ok mdRes =>
    rw [hmd] at h
    cases hm : root.dirs.mapM processDirSc with
    | error e =>
      rw [hm] at h
      cases h
    | ok results =>
      rw [hm] at h
      cases h
      have hmd1 : mdRes.1 = [] := processDirSc_ok_fst _ mdRes hmd
      show mdRes.1 ++ _ = []
      rw [hmd1, List.nil_append, List.flatten_eq_nil_iff]
      intro l hl
      rw [List.mem_map] at hl
      obtain ⟨p, hp, rfl⟩ := hl
      exact mapM_processDirSc_mem root.dirs results hm p hp

/-! ## A second pass finds no sidecar files -/

theorem infoFilesOf_dirAfterCleanup (d : PlaylistDir) :
    infoFilesOf (dirAfterCleanup d) = [] := by
  unfold infoFilesOf dirAfterCleanup
  rw [List.filter_eq_nil_iff]
  intro f hf
  rw [List.mem_filter] at hf
  have h2 := hf.2
  rw [Bool.and_eq_true, Bool.not_eq_true'] at h2
  simp [h2.1]

theorem infoFilesOf_processDirYt_snd (d : PlaylistDir) :
    infoFilesOf (processDirYt d).2 = [] := by
  cases hinfo : infoFilesOf d with
  | nil => simp [processDirYt, hinfo]
  | cons first rest =>
    simp [processDirYt, hinfo, infoFilesOf_dirAfterCleanup]

theorem processDirYt_twice_fst (d : PlaylistDir) :
    (processDirYt (processDirYt d).2).1 = [] := by
  have h := infoFilesOf_processDirYt_snd d
  generalize (processDirYt d).2 = d2 at h ⊢
  simp [processDirYt, h]

/-- A name ending in `.txt` never matches the `*.info.json` pattern. -/
theorem isInfoJson_append_txt (x : Str) :
    isInfoJson (x ++ txtExtStr) = false := by
  unfold isInfoJson List.isSuffixOf
  rw [List.reverse_append]
  rfl

/-- The files a pass writes into `.metadata` match `*.info.json` only
through the `<name>.json` file of a directory whose name ends in
`.info`. -/
theorem writtenMetaFiles_not_info (d : PlaylistDir)
    (h : isInfoJson (d.name ++ jsonExtStr) = false) :
    ∀ f ∈ writtenMetaFiles d, isInfoJson f.name = false := by
  intro f hf
  cases hinfo : infoFilesOf d with
  | nil =>
    simp only [writtenMetaFiles, hinfo] at hf
    exact absurd hf (List.not_mem_nil f)
  | cons first rest =>
    simp only [writtenMetaFiles, hinfo] at hf
    rcases List.mem_cons.mp hf with rfl | hf2
    · exact h
    · by_cases hd : d.files.any (fun f => f.name == d.name ++ descExtStr)
      · rw [if_pos hd] at hf2
        rcases List.mem_cons.mp hf2 with rfl | hf3
        · exact isInfoJson_append_txt d.name
        · exact absurd hf3 (List.not_mem_nil f)
      · rw [if_neg hd] at hf2
        exact absurd hf2 (List.not_mem_nil f)

/-- After one YouTube-variant pass over a root none of whose playlist
directories has a name ending in `.info`, the `.metadata` directory
contains no file matching `*.info.json`. -/
theorem metadataFiles_after_no_info (root : OutRoot)
    (h : ∀ d ∈ root.dirs, isInfoJson (d.name ++ jsonExtStr) = false) :
    ((cleanup_ytdlp_metadata root).2.metadataFiles).filter
      (fun f => isInfoJson f.name) = [] := by
  rw [List.filter_eq_nil_iff]
  intro f hf
  rw [Bool.not_eq_true]
  simp only [cleanup_ytdlp_metadata, List.mem_append, List.mem_flatten,
    List.mem_map] at hf
  rcases hf with (hf | hf) | hf
  · have hA := infoFilesOf_processDirYt_snd
      ⟨metadataDirName, root.metadataFiles⟩
    unfold infoFilesOf at hA
    have := List.filter_eq_nil_iff.mp hA f hf
    rwa [Bool.not_eq_true] at this
  · exact writtenMetaFiles_not_info ⟨metadataDirName, root.metadataFiles⟩
      (show isInfoJson (metadataDirName ++ jsonExtStr) = false by decide) f hf
  · obtain ⟨l, ⟨d, hd, rfl⟩, hfl⟩ := hf
    exact writtenMetaFiles_not_info d (h d hd) f hfl

/-! ## The phase loop -/

theorem phaseLoop_go (dl : Str → Int) :
    ∀ (links : List Str) (acc : Int × List Str),
      links.foldl (fun acc link =>
          (if dl link ≠ 0 then dl link else acc.1, acc.2 ++ [link])) acc
        = (links.foldl (fun e link => if dl link ≠ 0 then dl link else e)
            acc.1,
           acc.2 ++ links) := by
  intro links
  induction links with
  | nil => intro acc; simp
  | cons l ls ih =>
    intro acc
    rw [List.foldl_cons, List.foldl_cons, ih]
    simp

theorem phaseLoop_snd (dl : Str → Int) (links : List Str) :
    (phaseLoop dl links).2 = links := by
  unfold phaseLoop
  rw [phaseLoop_go]
  simp

theorem foldl_codes_eq_lastNonzero :
    ∀ (codes : List Int) (a : Int),
      codes.foldl (fun e c => if c ≠ 0 then c else e) a
        = (codes.reverse.find? (fun c => c != 0)).getD a := by
  intro codes
  induction codes with
  | nil => intro a; rfl
  | cons c cs ih =>
    intro a
    rw [List.foldl_cons, ih, List.reverse_cons, List.find?_append]
    cases h : cs.reverse.find? (fun c => c != 0) with
    | some y => simp [h, Option.or]
    | none =>
      by_cases hc : c = 0
      · have hb : (c != 0) = false := by simp [hc]
        simp [h, hb, hc, Option.or, List.find?]
      · have hb : (c != 0) = true := by simpa using hc
        simp [h, hb, Option.or, List.find?]
        exact fun hx => absurd hx hc

theorem phase_main_eq_lastNonzero (dl : Str → Int) (links : List Str) :
    phase_main dl links = lastNonzeroCode (links.map dl) := by
  unfold phase_main lastNonzeroCode phaseLoop
  cases links with
  | nil => rfl
  | cons l ls =>
    rw [if_neg (by simp), phaseLoop_go]
    simp only
    rw [← List.foldl_map dl (fun e c => if c ≠ 0 then c else e)]
    exact foldl_codes_eq_lastNonzero _ 0

/-! # Claim theorems -/

/-- Claim C1.  The spec says both filesystem-count reconcilers synthesize
one record per missing ordinal, with error `"Missing <padded ordinal>"`,
and return the full list normally.  On `rootC1` (expected 2, present
ordinal 1) the YouTube variant does exactly that, but the SoundCloud
variant raises `TypeError` — its missing-record constructor call uses
the keyword names `songurl`, `playlisturl`, `listposition`, which
`Song.__init__` does not declare — instead of returning. -/
theorem c1_scdl_raises_yt_returns :
    cleanupscdlmetadata rootC1 = Except.error strTypeError ∧
    (cleanup_ytdlp_metadata rootC1).1 = [songC1] :=
  ⟨rfl, by decide⟩

/-- Claim C2, counterexample.  With two SoundCloud links whose downloads
exit with 2 and then 3, the claim says the phase halts after the first
failure and 2 becomes the process exit code; in fact both links are
processed and the exit code is 3 (the last nonzero code). -/
theorem c2_counterexample :
    mainExit true contentC2 dlC2 dlZeroC2 dlZeroC2 = 3 ∧
    mainExit true contentC2 dlC2 dlZeroC2 dlZeroC2 ≠ 2 ∧
    (phaseLoop dlC2 ((read_links contentC2).soundcloud)).2
      = [linkC2a, linkC2b] :=
  ⟨by decide, by decide, by decide⟩

/-- Claim C2, amended.  A nonzero downloader code does not stop the
phase: every link is passed to the downloader, and the phase's exit code
is the last nonzero code (0 when all succeed).  Whichever phase —
SoundCloud, YouTube or Spotify — is the first whose final code is
nonzero, that code becomes the process exit code and the downloaders of
all later phases cannot influence the result. -/
theorem c2_phase_continues_after_failure :
    (∀ (dl : Str → Int) (links : List Str), (phaseLoop dl links).2 = links) ∧
    (∀ (dl : Str → Int) (links : List Str),
        phase_main dl links = lastNonzeroCode (links.map dl)) ∧
    (∀ (content : Option (List Str)) (dlSc dlYt dlYt2 dlSp dlSp2 : Str → Int),
        phase_main dlSc (read_links content).soundcloud ≠ 0 →
        mainExit true content dlSc dlYt dlSp
            = phase_main dlSc (read_links content).soundcloud ∧
        mainExit true content dlSc dlYt dlSp
            = mainExit true content dlSc dlYt2 dlSp2) ∧
    (∀ (content : Option (List Str)) (dlSc dlYt dlSp dlSp2 : Str → Int),
        phase_main dlSc (read_links content).soundcloud = 0 →
        phase_main dlYt (read_links content).youtube ≠ 0 →
        mainExit true content dlSc dlYt dlSp
            = phase_main dlYt (read_links content).youtube ∧
        mainExit true content dlSc dlYt dlSp
            = mainExit true content dlSc dlYt dlSp2) ∧
    (∀ (content : Option (List Str)) (dlSc dlYt dlSp : Str → Int),
        phase_main dlSc (read_links content).soundcloud = 0 →
        phase_main dlYt (read_links content).youtube = 0 →
        phase_main dlSp (read_links content).spotify ≠ 0 →
        mainExit true content dlSc dlYt dlSp
            = phase_main dlSp (read_links content).spotify) := by
  refine ⟨phaseLoop_snd, phase_main_eq_lastNonzero, ?_, ?_, ?_⟩
  · intro content dlSc dlYt dlYt2 dlSp dlSp2 h
    constructor
    · simp [mainExit, h]
    · simp [mainExit, h]
  · intro content dlSc dlYt dlSp dlSp2 hsc hyt
    constructor
    · simp [mainExit, hsc, hyt]
    · simp [mainExit, hsc, hyt]
  · intro content dlSc dlYt dlSp hsc hyt hsp
    simp [mainExit, hsc, hyt, hsp]

/-- Claim C2, witness for the amended theorem at a concrete failing
SoundCloud phase and a concrete failing YouTube phase. -/
theorem c2_witness :
    (phase_main dlC2 ((read_links contentC2).soundcloud) ≠ 0 ∧
     mainExit true contentC2 dlC2 dlZeroC2 dlZeroC2
       = phase_main dlC2 ((read_links contentC2).soundcloud)) ∧
    (phase_main dlZeroC2 ((read_links contentC2yt).soundcloud) = 0 ∧
     phase_main dlFiveC2 ((read_links contentC2yt).youtube) ≠ 0 ∧
     mainExit true contentC2yt dlZeroC2 dlFiveC2 dlZeroC2
       = phase_main dlFiveC2 ((read_links contentC2yt).youtube)) :=
  ⟨⟨by decide, (c2_phase_continues_after_failure.2.2.1 contentC2 dlC2 dlZeroC2
      dlZeroC2 dlZeroC2 dlZeroC2 (by decide)).1⟩,
   ⟨by decide, by decide,
    (c2_phase_continues_after_failure.2.2.2.1 contentC2yt dlZeroC2 dlFiveC2
      dlZeroC2 dlZeroC2 (by decide) (by decide)).1⟩⟩

/-- Claim C3.  The Spotify reconciler's expected count is always the
length of the metadata track listing, and each missing ordinal `num`
yields the record built from the `num`-th (1-indexed) listing item;
concretely, with 3 of 5 expected files present and a 5-track listing it
returns exactly the records `04` and `05` (padding 2) populated from
track items 4 and 5. -/
theorem c3_metadata_is_expected_count :
    (∀ (purl pname : Str) (st : SpState) (tracks : List SpTrackItem),
        st.metadataFileExists = true → st.playlistDirExists = true →
        st.metaDoc = some tracks →
        (scanNumbers true spotifyExts st.files).1 ≠ [] →
        check_missing_tracks_with_metadata_spotify purl pname st
          = (missingBetween tracks.length
              (scanNumbers true spotifyExts st.files).1).map
              (fun num => songOfItem purl pname tracks.length
                (scanNumbers true spotifyExts st.files).2 num
                (tracks.getD (num - 1) dflTrackItem))) ∧
    check_missing_tracks_with_metadata_spotify purlC3 pnameC3 stC3
      = [songC3a, songC3b] := by
  constructor
  · intro purl pname st tracks h1 h2 h3 h4
    unfold check_missing_tracks_with_metadata_spotify
    rw [h1, h2, h3]
    rw [if_neg (by decide), if_neg (by decide)]
    simp only
    rw [if_neg (by simp [h4])]
    by_cases hm : missingBetween tracks.length
        (scanNumbers true spotifyExts st.files).1 = []
    · rw [if_pos (by simp [hm]), hm, List.map_nil]
    · rw [if_neg (by simp [hm])]
      apply filterMap_eq_map_of_forall
      intro k hk
      obtain ⟨hk1, hk2, -⟩ := (mem_missingBetween _ _ _).mp hk
      have hlt : k - 1 < tracks.length := by omega
      rw [List.getElem?_eq_getElem hlt, List.getD_eq_getElem?_getD,
        List.getElem?_eq_getElem hlt]
      rfl
  · decide

/-- Claim C3, witness: the general statement applied to the concrete
3-of-5 scenario. -/
theorem c3_witness :
    stC3.metadataFileExists = true ∧
    check_missing_tracks_with_metadata_spotify purlC3 pnameC3 stC3
      = (missingBetween tracksC3.length
          (scanNumbers true spotifyExts stC3.files).1).map
          (fun num => songOfItem purlC3 pnameC3 tracksC3.length
            (scanNumbers true spotifyExts stC3.files).2 num
            (tracksC3.getD (num - 1) dflTrackItem)) :=
  ⟨rfl, c3_metadata_is_expected_count.1 purlC3 pnameC3 stC3 tracksC3 rfl rfl
    rfl (by decide)⟩

/-- Claim C4.  The missing-ordinal set is exactly `{1..expected}` minus
the parsed present ordinals, and the padding width is the maximum digit
count among present leading integers: files `01 - A.mp3`, `002 - B.mp3`
give padding 3 and ordinal 5 is reported `Missing 005` (in the YouTube
and the Spotify variants); expected 5 with present `{1,3}` gives the
missing set `{2,4,5}`. -/
theorem c4_missing_set_and_padding :
    (∀ (expected : Nat) (numbers : List Nat) (n : Nat),
        n ∈ missingBetween expected numbers ↔
          1 ≤ n ∧ n ≤ expected ∧ numbers.contains n = false) ∧
    (cleanup_ytdlp_metadata rootC4a).1.map (fun s => s.error)
      = ["Missing 003".data, "Missing 004".data, "Missing 005".data] ∧
    (check_missing_tracks_with_metadata_spotify ("PU4".data) ("PN4".data)
        stC4).map (fun s => s.error)
      = ["Missing 003".data, "Missing 004".data, "Missing 005".data] ∧
    (cleanup_ytdlp_metadata rootC4b).1.map
        (fun s => digitsToNat s.list_position)
      = [2, 4, 5] :=
  ⟨mem_missingBetween, by decide, by decide, by decide⟩

/-- Claim C5, counterexample.  The accepted link
`https://soundcloud.com/spotify.com/x` contains both `spotify.com` and
`soundcloud.com`; the claim says it is tagged soundcloud, but the code
tests `spotify.com` first and files it under spotify. -/
theorem c5_counterexample :
    (read_links contentC5).all = [urlC5] ∧
    (read_links contentC5).spotify = [urlC5] ∧
    (read_links contentC5).soundcloud = [] :=
  ⟨by decide, by decide, by decide⟩

/-- Claim C5, amended.  The classification priority is spotify,
soundcloud, youtube: any URL containing `spotify.com` is tagged spotify
(even when soundcloud or youtube substrings are present); `soundcloud`
and `youtube` tags require the higher-priority substrings to be
absent. -/
theorem c5_spotify_tested_first :
    (∀ u : Str, containsSub domSpotify u = true →
        linkKind u = some SourceKind.spotify) ∧
    (∀ u : Str, containsSub domSpotify u = false →
        containsSub domSoundcloud u = true →
        linkKind u = some SourceKind.soundcloud) ∧
    (∀ u : Str, containsSub domSpotify u = false →
        containsSub domSoundcloud u = false →
        (containsSub domYoutube u || containsSub domYoutuBe u) = true →
        linkKind u = some SourceKind.youtube) := by
  refine ⟨?_, ?_, ?_⟩
  · intro u h
    simp [linkKind, h]
  · intro u h1 h2
    simp [linkKind, h1, h2]
  · intro u h1 h2 h3
    simp [linkKind, h1, h2, h3]

/-- Claim C5, witness for the amended theorem at the dual-domain URL. -/
theorem c5_witness :
    containsSub domSpotify urlC5 = true ∧
    linkKind urlC5 = some SourceKind.spotify :=
  ⟨by decide, c5_spotify_tested_first.1 urlC5 (by decide)⟩

/-- Claim C6, counterexample.  With an existing but unreadable input
file every phase sees zero links and returns success, so the process
exits 0 — not a nonzero code as the claim states (downloaders would all
fail here, but are never invoked). -/
theorem c6_counterexample :
    mainExit true none dlOneC6 dlOneC6 dlOneC6 = 0 := by
  decide

/-- Claim C6, amended.  An unreadable input file surfaces as "no links
found" (the extractor returns empty link lists) and every phase then
skips with success: the run completes with exit code 0 regardless of the
downloaders. -/
theorem c6_unreadable_input_exits_zero :
    read_links none = emptyLinks ∧
    ∀ dlSc dlYt dlSp : Str → Int, mainExit true none dlSc dlYt dlSp = 0 :=
  ⟨rfl, fun _ _ _ => rfl⟩

/-- Claim C7, counterexample.  On `rootC7` the first filesystem-count
run reports ordinal 2 missing, but the run moves the sidecar file out of
the playlist directory, so an immediate second run over the same output
root reports nothing: the two missing-ordinal sets differ. -/
theorem c7_counterexample :
    (cleanup_ytdlp_metadata rootC7).1.map (fun s => digitsToNat s.list_position)
      = [2] ∧
    (cleanup_ytdlp_metadata (cleanup_ytdlp_metadata rootC7).2).1 = [] :=
  ⟨by decide, by decide⟩

/-- Claim C7, amended.  Provided no playlist directory's name ends in
`.info`, a second filesystem-count run over the output root left by a
first run returns the empty missing set: the first run moved or deleted
every sidecar file out of the playlist directories, and the
`<name>.json` files it wrote into `.metadata` do not match
`*.info.json`, so every directory — `.metadata` included — is skipped;
hence the two runs agree exactly when the first found nothing missing.
(When a playlist name does end in `.info`, the written `<name>.json`
matches the sidecar pattern and a second run can process `.metadata`
itself and report records.) -/
theorem c7_second_run_returns_empty :
    ∀ root : OutRoot,
      (∀ d ∈ root.dirs, isInfoJson (d.name ++ jsonExtStr) = false) →
      (cleanup_ytdlp_metadata (cleanup_ytdlp_metadata root).2).1 = [] := by
  intro root h
  have hmd := metadataFiles_after_no_info root h
  have hdirs : ∀ d2 ∈ (cleanup_ytdlp_metadata root).2.dirs,
      (processDirYt d2).1 = [] := by
    intro d2 hd2
    simp only [cleanup_ytdlp_metadata, List.mem_map] at hd2
    obtain ⟨d, hd, rfl⟩ := hd2
    exact processDirYt_twice_fst d
  generalize (cleanup_ytdlp_metadata root).2 = s1 at hmd hdirs
  simp only [cleanup_ytdlp_metadata]
  rw [List.append_eq_nil]
  constructor
  · have hinfo : infoFilesOf ⟨metadataDirName, s1.metadataFiles⟩ = [] := by
      unfold infoFilesOf
      exact hmd
    simp [processDirYt, hinfo]
  · rw [List.flatten_eq_nil_iff]
    intro l hl
    rw [List.mem_map] at hl
    obtain ⟨d2, hd2, rfl⟩ := hl
    exact hdirs d2 hd2

/-- Claim C7, witness for the amended theorem at the concrete root. -/
theorem c7_witness :
    (∀ d ∈ rootC7.dirs, isInfoJson (d.name ++ jsonExtStr) = false) ∧
    (cleanup_ytdlp_metadata (cleanup_ytdlp_metadata rootC7).2).1 = [] :=
  ⟨by decide, c7_second_run_returns_empty rootC7 (by decide)⟩

/-- Claim C8.  The error-log parser: the documented `LookupError` line
yields exactly one record with kind `LookupError: No results found`,
artists `["Artist1", "Artist2"]` and title `Title`; an unreadable
artifact yields `[]`; and a line that does not start with the Spotify
track-URL prefix is ignored. -/
theorem c8_parse_errors :
    parse_errors (some [lineC8]) purlC8 = [songC8] ∧
    (∀ purl : Str, parse_errors none purl = []) ∧
    (∀ (purl l : Str) (rest : List Str),
        trackUrlStart.isPrefixOf (pyStrip l) = false →
        parse_errors (some (l :: rest)) purl
          = parse_errors (some rest) purl) := by
  refine ⟨by decide, fun _ => rfl, ?_⟩
  intro purl l rest h
  simp only [parse_errors, parseErrLines, h]
  simp

/-- Claim C8, witness: a non-track line is skipped. -/
theorem c8_witness :
    trackUrlStart.isPrefixOf (pyStrip lineC8skip) = false ∧
    parse_errors (some [lineC8skip]) purlC8 = parse_errors (some []) purlC8 :=
  ⟨by decide, c8_parse_errors.2.2 purlC8 lineC8skip [] (by decide)⟩

/-- Claim C9.  A playlist directory with sidecar metadata (expected 2)
but no numbered audio files: the YouTube filesystem-count variant does
not skip it and returns the unpadded records `Missing 1`, `Missing 2`,
and the Spotify variant returns empty — as claimed; the SoundCloud
variant, however, raises `TypeError` from its misspelled constructor
keywords instead of returning the records. -/
theorem c9_no_numbered_files :
    (cleanup_ytdlp_metadata rootC9).1.map (fun s => s.error)
      = ["Missing 1".data, "Missing 2".data] ∧
    check_missing_tracks_with_metadata_spotify ("PU9".data) ("pl".data)
        stC9 = [] ∧
    cleanupscdlmetadata rootC9 = Except.error strTypeError :=
  ⟨by decide, by decide, rfl⟩

/-- Claim C10.  Every missing-track record any reconciler variant
returns satisfies: its error field is `"Missing "` followed by its
`list_position`, whose numeric value lies between 1 and the record's
playlist expected count.  (The SoundCloud variant only ever returns
normally with an empty record list, so the invariant holds vacuously
there.) -/
theorem c10_missing_record_invariant :
    (∀ (root : OutRoot) (s : Song),
        s ∈ (cleanup_ytdlp_metadata root).1 → SongInv s) ∧
    (∀ (purl pname : Str) (st : SpState) (s : Song),
        s ∈ check_missing_tracks_with_metadata_spotify purl pname st →
        SongInv s) ∧
    (∀ (root : OutRoot) (res : List Song × OutRoot),
        cleanupscdlmetadata root = Except.ok res →
        ∀ s ∈ res.1, SongInv s) := by
  refine ⟨songInv_cleanup_ytdlp, songInv_check_spotify, ?_⟩
  intro root res h s hs
  rw [cleanupscdl_ok_fst root res h] at hs
  exact absurd hs (List.not_mem_nil s)

/-- Claim C10, witness: the invariant at a concrete returned record. -/
theorem c10_witness :
    songC10 ∈ (cleanup_ytdlp_metadata rootC10).1 ∧ SongInv songC10 :=
  ⟨by decide, c10_missing_record_invariant.1 rootC10 songC10 (by decide)⟩

end MultiMP3
